import Mathlib

/-!
# ftracker: fitness metrics (distance, mean speed, spent calories, report)

A shallow embedding of `src/ftracker/ftracker.go`.

Numbers.  Go's `float64` is embedded as `F64`: a finite value is an exact
rational, and the three non-finite results of IEEE arithmetic (`+Inf`, `-Inf`,
`NaN`) are kept as values of their own, because the code divides by an
unguarded argument (`height`) and renders whatever comes out.  Arithmetic on
finite values is exact: rounding to 53 bits, overflow to infinity, underflow to
zero and the sign of zero are not part of the embedding, so a value the
embedding has as finite may be an infinity or `NaN` in the program when an
input is near the ends of the `float64` range.  Go's `int` is embedded as `Int`; the
only operation on it is the conversion `float64(action)`.  Go's untyped
constants are exact rationals and are embedded as `ℚ`.
-/

namespace Ftracker

/-! ## float64 -/

/-- Values of Go's `float64`: finite ones carry their exact value. -/
inductive F64 where
  | fin (q : ℚ)
  | inf (neg : Bool)
  | nan
  deriving DecidableEq

namespace F64

/-- Multiplication `x * y`; `Inf * 0` is `NaN`.  A product of finite values is
exact and finite: the rounding and the overflow of `float64` are left out. -/
def mul : F64 → F64 → F64
  | nan, _ => nan
  | _, nan => nan
  | fin a, fin b => fin (a * b)
  | inf s, inf t => inf (xor s t)
  | inf s, fin b => if b = 0 then nan else inf (xor s (decide (b < 0)))
  | fin a, inf t => if a = 0 then nan else inf (xor (decide (a < 0)) t)

/-- Addition `x + y`; `+Inf + -Inf` is `NaN`. -/
def add : F64 → F64 → F64
  | nan, _ => nan
  | _, nan => nan
  | fin a, fin b => fin (a + b)
  | inf s, fin _ => inf s
  | fin _, inf t => inf t
  | inf s, inf t => if s = t then inf s else nan

/-- Division `x / y`: a non-zero finite value divided by zero is an infinity of
the dividend's sign, `0 / 0` and `Inf / Inf` are `NaN`, a finite value divided
by an infinity is `0`.  A quotient of finite values by a non-zero one is exact
and finite: the rounding, the overflow and the underflow of `float64` are left
out. -/
def div : F64 → F64 → F64
  | nan, _ => nan
  | _, nan => nan
  | fin a, fin b => if b = 0 then (if a = 0 then nan else inf (decide (a < 0))) else fin (a / b)
  | fin _, inf _ => fin 0
  | inf s, fin b => inf (xor s (decide (b < 0)))
  | inf _, inf _ => nan

instance : Mul F64 := ⟨mul⟩
instance : Add F64 := ⟨add⟩
instance : Div F64 := ⟨div⟩
instance : Coe ℚ F64 := ⟨fin⟩

/-- The conversion `float64(n)` of an `int`. -/
def ofInt (n : Int) : F64 := fin n

/-- The comparison `x == 0`: false for `NaN` and the infinities. -/
def isZero : F64 → Bool
  | fin q => decide (q = 0)
  | _ => false

/-- A finite value. -/
def isFinite : F64 → Bool
  | fin _ => true
  | _ => false

end F64

/-- The call `math.Pow(x, n)` for a natural exponent `n`: `Pow(x, 0)` is `1` for
every `x`, `NaN` included; an infinity stays one, negative only for an odd `n`. -/
def Pow (x : F64) (n : ℕ) : F64 :=
  if n = 0 then F64.fin 1
  else match x with
    | F64.fin a => F64.fin (a ^ n)
    | F64.inf s => F64.inf (s && decide (n % 2 = 1))
    | F64.nan => F64.nan

/-! ## Constants -/

/-- Mean step length, m. -/
def lenStep : ℚ := 0.65
/-- Meters in a kilometer. -/
def mInKm : ℚ := 1000
/-- Minutes in an hour. -/
def minInH : ℚ := 60
/-- Factor converting km/h to m/s. -/
def kmhInMsec : ℚ := 0.278
/-- Centimeters in a meter. -/
def cmInM : ℚ := 100
/-- Weight multiplier of the walking formula. -/
def walkingCaloriesWeightMultiplier : ℚ := 0.035
/-- Height multiplier of the walking formula. -/
def walkingSpeedHeightMultiplier : ℚ := 0.029
/-- Length of one swimming stroke (declared, never used). -/
def swimmingLenStep : ℚ := 1.38
/-- Speed shift of the swimming formula. -/
def swimmingCaloriesMeanSpeedShift : ℚ := 1.1
/-- Weight multiplier of the swimming formula. -/
def swimmingCaloriesWeightMultiplier : ℚ := 2
/-- Speed multiplier of the running formula. -/
def runningCaloriesMeanSpeedMultiplier : ℚ := 18
/-- Speed shift of the running formula. -/
def runningCaloriesMeanSpeedShift : ℚ := 1.79

/-! ## Kinematics -/

/-- Distance in km: `float64(action) * lenStep / mInKm`. -/
def distance (action : Int) : F64 :=
  F64.ofInt action * (lenStep : F64) / (mInKm : F64)

/-- Mean speed in km/h, `0` for a zero duration. -/
def meanSpeed (action : Int) (duration : F64) : F64 :=
  if duration.isZero then F64.fin 0
  else distance action / duration

/-- Mean swimming speed in km/h, `0` for a zero duration. -/
def swimmingMeanSpeed (lengthPool countPool : Int) (duration : F64) : F64 :=
  if duration.isZero then F64.fin 0
  else F64.ofInt lengthPool * F64.ofInt countPool / (mInKm : F64) / duration

/-! ## Spent calories -/

/-- Calories spent running. -/
def RunningSpentCalories (action : Int) (weight duration : F64) : F64 :=
  ((runningCaloriesMeanSpeedMultiplier : F64) * meanSpeed action duration
      * (runningCaloriesMeanSpeedShift : F64)) * weight / (mInKm : F64) * duration * (minInH : F64)

/-- Calories spent walking. -/
def WalkingSpentCalories (action : Int) (duration weight height : F64) : F64 :=
  ((walkingCaloriesWeightMultiplier : F64) * weight
      + (Pow (meanSpeed action duration * (kmhInMsec : F64)) 2 / height / (cmInM : F64))
        * (walkingSpeedHeightMultiplier : F64) * weight) * duration * (minInH : F64)

/-- Calories spent swimming. -/
def SwimmingSpentCalories (lenghtPool countPool : Int) (duration weight : F64) : F64 :=
  ((swimmingMeanSpeed lenghtPool countPool duration * (swimmingCaloriesMeanSpeedShift : F64))
      * (swimmingCaloriesWeightMultiplier : F64) * weight * duration)

/-! ## Report -/

/-- Nearest natural number to `|q| * 100`, a tie going to the even one: the
digits `strconv` keeps when it rounds a decimal expansion to two places. -/
def roundHundredths (q : ℚ) : ℕ :=
  let n := q.num.natAbs * 100
  let f := n / q.den
  let r := n % q.den
  if 2 * r < q.den then f
  else if q.den < 2 * r then f + 1
  else if f % 2 = 0 then f else f + 1

/-- The verb `%.2f`: a minus sign for a negative value (also when it rounds to
zero), the integer part, a point and two digits; `+Inf`, `-Inf` and `NaN` for
the non-finite values.  The digits are those of the exact value it is given:
where that value is a decimal tie (0.065) and the `float64` nearest to it is
not, the last digit may differ from the program's, and a negative zero is never
rendered. -/
def fmtFloat2 : F64 → String
  | F64.nan => "NaN"
  | F64.inf false => "+Inf"
  | F64.inf true => "-Inf"
  | F64.fin q =>
    let n := roundHundredths q
    (if q < 0 then "-" else "") ++ Nat.repr (n / 100) ++ "."
      ++ String.mk [Nat.digitChar (n % 100 / 10), Nat.digitChar (n % 10)]

/-- The call `fmt.Sprintf` with the format the three branches of
`ShowTrainingInfo` share:
`"Тип тренировки: %s\nДлительность: %.2f ч.\nДистанция: %.2f км.\nСкорость: %.2f км/ч\nСожгли калорий: %.2f\n"`. -/
def Sprintf (trainingType : String) (duration distance speed calories : F64) : String :=
  "Тип тренировки: " ++ trainingType
    ++ "\nДлительность: " ++ fmtFloat2 duration
    ++ " ч.\nДистанция: " ++ fmtFloat2 distance
    ++ " км.\nСкорость: " ++ fmtFloat2 speed
    ++ " км/ч\nСожгли калорий: " ++ fmtFloat2 calories ++ "\n"

/-- Report on a training: the kind is matched against three literal labels,
any other one gets the fallback string. -/
def ShowTrainingInfo (action : Int) (trainingType : String) (duration weight height : F64)
    (lengthPool countPool : Int) : String :=
  if trainingType = "Бег" then
    let distance := distance action
    let speed := meanSpeed action duration
    let calories := RunningSpentCalories action weight duration
    Sprintf trainingType duration distance speed calories
  else if trainingType = "Ходьба" then
    let distance := distance action
    let speed := meanSpeed action duration
    let calories := WalkingSpentCalories action duration weight (height / (cmInM : F64))
    Sprintf trainingType duration distance speed calories
  else if trainingType = "Плавание" then
    let distance := distance countPool
    let speed := swimmingMeanSpeed lengthPool countPool duration
    let calories := SwimmingSpentCalories lengthPool countPool duration weight
    Sprintf trainingType duration distance speed calories
  else
    "неизвестный тип тренировки"

/-! ## Specification-side definitions -/

/-- The walking formula as the specification words it:
`(weightMultiplier × weightKg + ((meanSpeed × kmhToMs)² / heightM) × heightMultiplier × weightKg)
× durationHours × minutesPerHour`, the squared speed divided by the height and by nothing else. -/
def WalkingSpentCalories_spec (action : Int) (duration weight heightM : F64) : F64 :=
  (F64.fin 0.035 * weight
      + (Pow (meanSpeed action duration * F64.fin 0.278) 2 / heightM) * F64.fin 0.029 * weight)
    * duration * F64.fin 60

/-- A number rendered with exactly two digits after the decimal point: an
optional minus sign, one or more digits, a point, two digits. -/
def isFixed2 (s : String) : Bool :=
  let body := if s.data.head? = some '-' then s.data.tail else s.data
  match body.reverse with
  | d2 :: d1 :: p :: ip =>
    d2.isDigit && d1.isDigit && decide (p = '.') && !ip.isEmpty && ip.all Char.isDigit
  | _ => false

/-- The fixed layout of a report on the training `t`: five lines in the order
kind, duration, distance, speed, calories, each ended by a newline, the four
numbers rendered with exactly two digits after the point. -/
def ReportShape (t s : String) : Prop :=
  ∃ n1 n2 n3 n4 : String,
    isFixed2 n1 = true ∧ isFixed2 n2 = true ∧ isFixed2 n3 = true ∧ isFixed2 n4 = true ∧
    s = "Тип тренировки: " ++ t ++ "\n" ++ "Длительность: " ++ n1 ++ " ч.\n"
        ++ "Дистанция: " ++ n2 ++ " км.\n" ++ "Скорость: " ++ n3 ++ " км/ч\n"
        ++ "Сожгли калорий: " ++ n4 ++ "\n"

/-- The rendering `n` of the value `v` by `%.2f`: exactly two digits after the
point when `v` is finite, one of `+Inf`, `-Inf`, `NaN` when it is not. -/
def Rendered (v : F64) (n : String) : Bool :=
  if v.isFinite then isFixed2 n
  else decide (n = "+Inf") || decide (n = "-Inf") || decide (n = "NaN")

/-- The layout of a report on the training `t` that renders the values `v1`
(duration), `v2` (distance), `v3` (speed) and `v4` (calories): five lines in
that order after the kind, each ended by a newline, every value rendered as
`Rendered` says. -/
def ReportOn (t : String) (v1 v2 v3 v4 : F64) (s : String) : Prop :=
  ∃ n1 n2 n3 n4 : String,
    Rendered v1 n1 = true ∧ Rendered v2 n2 = true ∧ Rendered v3 n3 = true
      ∧ Rendered v4 n4 = true ∧
    s = "Тип тренировки: " ++ t ++ "\n" ++ "Длительность: " ++ n1 ++ " ч.\n"
        ++ "Дистанция: " ++ n2 ++ " км.\n" ++ "Скорость: " ++ n3 ++ " км/ч\n"
        ++ "Сожгли калорий: " ++ n4 ++ "\n"

/-- A value that is not negative: a finite value at least zero, or `+Inf`;
`NaN` is not one. -/
def F64.isNonneg : F64 → Bool
  | F64.fin q => decide (0 ≤ q)
  | F64.inf neg => !neg
  | F64.nan => false

/-! ## Lemmas on the embedding -/

open F64

/-- Finite values multiply exactly. -/
@[simp]
theorem F64.fin_mul_fin (a b : ℚ) : (fin a * fin b : F64) = fin (a * b) := rfl

/-- Finite values add exactly. -/
@[simp]
theorem F64.fin_add_fin (a b : ℚ) : (fin a + fin b : F64) = fin (a + b) := rfl

/-- Division of finite values by a non-zero divisor is exact. -/
theorem F64.fin_div_fin (a b : ℚ) (hb : b ≠ 0) : (fin a / fin b : F64) = fin (a / b) := by
  show F64.div (fin a) (fin b) = fin (a / b)
  simp [F64.div, hb]

/-- The comparison with zero holds for the finite value zero only. -/
theorem F64.isZero_iff (d : F64) : d.isZero = true ↔ d = fin 0 := by
  cases d <;> simp [F64.isZero]

/-- The characters of a report, piece by piece. -/
theorem Sprintf_data (t : String) (d x s c : F64) :
    (Sprintf t d x s c).data
      = "Тип тренировки: ".data ++ t.data ++ "\nДлительность: ".data ++ (fmtFloat2 d).data
        ++ " ч.\nДистанция: ".data ++ (fmtFloat2 x).data
        ++ " км.\nСкорость: ".data ++ (fmtFloat2 s).data
        ++ " км/ч\nСожгли калорий: ".data ++ (fmtFloat2 c).data ++ "\n".data := by
  simp [Sprintf, String.data_append]

/-- A formatted report is never the fallback string: it starts with another letter. -/
theorem Sprintf_ne_fallback (t : String) (d x s c : F64) :
    Sprintf t d x s c ≠ "неизвестный тип тренировки" := by
  intro h
  have h2 := congrArg String.data h
  rw [Sprintf_data] at h2
  simp at h2

/-- The character of a number below ten is a decimal digit. -/
theorem digitChar_isDigit (m : ℕ) (hm : m < 10) : (Nat.digitChar m).isDigit = true := by
  interval_cases m <;> rfl

/-- Decimal conversion only adds digits. -/
theorem toDigitsCore_isDigit (fuel : ℕ) : ∀ (n : ℕ) (ds : List Char),
    (∀ c ∈ ds, c.isDigit = true) → ∀ c ∈ Nat.toDigitsCore 10 fuel n ds, c.isDigit = true := by
  induction fuel with
  | zero => intro n ds hds; simpa [Nat.toDigitsCore] using hds
  | succ fuel ih =>
    intro n ds hds
    have hd : (Nat.digitChar (n % 10)).isDigit = true :=
      digitChar_isDigit _ (Nat.mod_lt _ (by norm_num))
    have hds2 : ∀ c ∈ Nat.digitChar (n % 10) :: ds, c.isDigit = true := by
      intro c hc
      rcases List.mem_cons.1 hc with h | h
      · rw [h]; exact hd
      · exact hds c h
    simp only [Nat.toDigitsCore]
    split_ifs with h0
    · exact hds2
    · exact ih _ _ hds2

/-- Decimal conversion yields at least one character. -/
theorem toDigitsCore_ne_nil (fuel : ℕ) : ∀ (n : ℕ) (ds : List Char),
    (fuel ≠ 0 ∨ ds ≠ []) → Nat.toDigitsCore 10 fuel n ds ≠ [] := by
  induction fuel with
  | zero => intro n ds h; simpa [Nat.toDigitsCore] using h
  | succ fuel ih =>
    intro n ds _
    simp only [Nat.toDigitsCore]
    split_ifs with h0
    · simp
    · exact ih _ _ (Or.inr (by simp))

/-- A digit is not the newline. -/
theorem isDigit_ne_newline (c : Char) (h : c.isDigit = true) : c ≠ '\n' := by
  rintro rfl; exact absurd h (by decide)

/-- A digit is not the minus sign. -/
theorem isDigit_ne_minus (c : Char) (h : c.isDigit = true) : c ≠ '-' := by
  rintro rfl; exact absurd h (by decide)

/-- Rendering of a finite value: sign, digits of the integer part, point, two digits. -/
theorem fmtFloat2_fin_data (q : ℚ) :
    ∃ (D : List Char) (a b : Char), D ≠ [] ∧ (∀ c ∈ D, c.isDigit = true)
      ∧ a.isDigit = true ∧ b.isDigit = true
      ∧ (fmtFloat2 (fin q)).data = (if q < 0 then ['-'] else []) ++ D ++ ['.', a, b] := by
  refine ⟨Nat.toDigits 10 (roundHundredths q / 100),
    Nat.digitChar (roundHundredths q % 100 / 10), Nat.digitChar (roundHundredths q % 10),
    toDigitsCore_ne_nil _ _ _ (Or.inl (by simp)), toDigitsCore_isDigit _ _ _ (by simp),
    digitChar_isDigit _ (by omega), digitChar_isDigit _ (by omega), ?_⟩
  simp only [fmtFloat2, String.data_append, Nat.repr, List.asString]
  split_ifs <;> simp

/-- A string of the form sign, digits, point, two digits passes `isFixed2`. -/
theorem isFixed2_of_data (s : String) (neg : Bool) (D : List Char) (a b : Char)
    (hne : D ≠ []) (hD : ∀ c ∈ D, c.isDigit = true) (ha : a.isDigit = true)
    (hb : b.isDigit = true)
    (hdata : s.data = (if neg then ['-'] else []) ++ D ++ ['.', a, b]) : isFixed2 s = true := by
  obtain ⟨c, cs, rfl⟩ := List.exists_cons_of_ne_nil hne
  have hc : c ≠ '-' := isDigit_ne_minus c (hD c (by simp))
  have hcd : c.isDigit = true := hD c (by simp)
  have hall : ∀ x ∈ cs, x.isDigit = true := fun x hx => hD x (by simp [hx])
  unfold isFixed2
  cases neg
  · have hd : s.data = c :: (cs ++ ['.', a, b]) := by rw [hdata]; simp
    rw [hd]
    simp [ha, hb, hc, hcd]
    exact hall
  · have hd : s.data = '-' :: (c :: cs ++ ['.', a, b]) := by rw [hdata]; simp
    rw [hd]
    simp [ha, hb, hcd]
    exact hall

/-- A finite value is rendered with exactly two digits after the point. -/
theorem isFixed2_fmtFloat2_fin (q : ℚ) : isFixed2 (fmtFloat2 (fin q)) = true := by
  obtain ⟨D, a, b, hne, hD, ha, hb, hdata⟩ := fmtFloat2_fin_data q
  refine isFixed2_of_data _ (decide (q < 0)) D a b hne hD ha hb ?_
  rw [hdata]
  by_cases hq : q < 0 <;> simp [hq]

/-- The rendering of a finite value holds no newline. -/
theorem fmtFloat2_fin_count_newline (q : ℚ) : (fmtFloat2 (fin q)).data.count '\n' = 0 := by
  obtain ⟨D, a, b, _, hD, ha, hb, hdata⟩ := fmtFloat2_fin_data q
  rw [hdata, List.count_eq_zero]
  intro hmem
  simp only [List.mem_append, List.mem_cons, List.mem_singleton] at hmem
  rcases hmem with (h | h) | h
  · split_ifs at h <;> simp at h
  · exact isDigit_ne_newline _ (hD _ h) rfl
  · rcases h with h | h | h | h
    · simp at h
    · exact isDigit_ne_newline _ ha h.symm
    · exact isDigit_ne_newline _ hb h.symm
    · simp at h

/-- Closed form of `distance`. -/
theorem distance_fin (a : Int) : distance a = fin (a * 0.65 / 1000) := by
  simp only [distance, F64.ofInt, lenStep, mInKm, F64.fin_mul_fin]
  rw [F64.fin_div_fin _ _ (by norm_num)]

/-- Closed form of `meanSpeed` on a finite duration. -/
theorem meanSpeed_fin (a : Int) (d : ℚ) :
    meanSpeed a (fin d) = fin (if d = 0 then 0 else a * 0.65 / 1000 / d) := by
  unfold meanSpeed
  by_cases h : d = 0
  · simp [h, F64.isZero]
  · simp [h, F64.isZero, distance_fin, F64.fin_div_fin]

/-- Closed form of `swimmingMeanSpeed` on a finite duration. -/
theorem swimmingMeanSpeed_fin (l c : Int) (d : ℚ) :
    swimmingMeanSpeed l c (fin d) = fin (if d = 0 then 0 else l * c / 1000 / d) := by
  unfold swimmingMeanSpeed
  by_cases h : d = 0
  · simp [h, F64.isZero]
  · simp [h, F64.isZero, F64.ofInt, mInKm, F64.fin_div_fin]

/-- Closed form of `RunningSpentCalories` on finite inputs. -/
theorem RunningSpentCalories_fin (a : Int) (w d : ℚ) :
    RunningSpentCalories a (fin w) (fin d)
      = fin (18 * (if d = 0 then 0 else a * 0.65 / 1000 / d) * 1.79 * w / 1000 * d * 60) := by
  simp [RunningSpentCalories, meanSpeed_fin, runningCaloriesMeanSpeedMultiplier,
    runningCaloriesMeanSpeedShift, mInKm, minInH, F64.fin_div_fin]

/-- Closed form of `WalkingSpentCalories` on finite inputs with a non-zero height. -/
theorem WalkingSpentCalories_fin (a : Int) (d w h : ℚ) (hh : h ≠ 0) :
    WalkingSpentCalories a (fin d) (fin w) (fin h)
      = fin ((0.035 * w + ((if d = 0 then 0 else a * 0.65 / 1000 / d) * 0.278) ^ 2 / h / 100
              * 0.029 * w) * d * 60) := by
  simp [WalkingSpentCalories, meanSpeed_fin, walkingCaloriesWeightMultiplier, Pow,
    walkingSpeedHeightMultiplier, kmhInMsec, cmInM, minInH, F64.fin_div_fin, hh]

/-- Closed form of `SwimmingSpentCalories` on finite inputs. -/
theorem SwimmingSpentCalories_fin (l c : Int) (d w : ℚ) :
    SwimmingSpentCalories l c (fin d) (fin w)
      = fin ((if d = 0 then 0 else l * c / 1000 / d) * 1.1 * 2 * w * d) := by
  simp [SwimmingSpentCalories, swimmingMeanSpeed_fin, swimmingCaloriesMeanSpeedShift,
    swimmingCaloriesWeightMultiplier]

/-- A finite value is one built by `fin`. -/
theorem F64.isFinite_iff (x : F64) : x.isFinite = true ↔ ∃ q, x = fin q := by
  cases x <;> simp [F64.isFinite]

/-- A string that passes `isFixed2` ends with a digit. -/
theorem isFixed2_last (n : String) (h : isFixed2 n = true) :
    ∃ (l : List Char) (d : Char), n.data = l ++ [d] ∧ d.isDigit = true := by
  unfold isFixed2 at h
  simp only at h
  split at h
  · rename_i d2 d1 p ip hrev
    simp only [Bool.and_eq_true] at h
    have hrev2 := congrArg List.reverse hrev
    rw [List.reverse_reverse] at hrev2
    split_ifs at hrev2 with hm
    · refine ⟨n.data.head?.toList ++ (ip.reverse ++ [p, d1]), d2, ?_, h.1.1.1.1⟩
      cases hn : n.data with
      | nil => simp [hn] at hm
      | cons x xs =>
        rw [hn] at hrev2
        simp at hrev2
        simp [hrev2]
    · exact ⟨ip.reverse ++ [p, d1], d2, by rw [hrev2]; simp, h.1.1.1.1⟩
  · exact absurd h (by simp)

/-- The rendering of any value holds no newline. -/
theorem fmtFloat2_count_newline (v : F64) : (fmtFloat2 v).data.count '\n' = 0 := by
  cases v with
  | fin q => exact fmtFloat2_fin_count_newline q
  | inf s => cases s <;> decide
  | nan => decide

/-- Every value is rendered as `Rendered` says. -/
theorem Rendered_fmtFloat2 (v : F64) : Rendered v (fmtFloat2 v) = true := by
  cases v with
  | fin q => simpa [Rendered, F64.isFinite] using isFixed2_fmtFloat2_fin q
  | inf s => cases s <;> decide
  | nan => decide

/-- A formatted report has the layout of a report on the values it is given. -/
theorem Sprintf_reportOn (t : String) (d x s c : F64) :
    ReportOn t d x s c (Sprintf t d x s c) := by
  refine ⟨fmtFloat2 d, fmtFloat2 x, fmtFloat2 s, fmtFloat2 c,
    Rendered_fmtFloat2 d, Rendered_fmtFloat2 x, Rendered_fmtFloat2 s, Rendered_fmtFloat2 c, ?_⟩
  apply String.ext
  simp [Sprintf_data, String.data_append]

/-- A formatted report holds five newlines when its label holds none. -/
theorem Sprintf_count_newline (t : String) (d x s c : F64) (ht : t.data.count '\n' = 0) :
    (Sprintf t d x s c).data.count '\n' = 5 := by
  simp only [Sprintf_data, List.count_append, fmtFloat2_count_newline, ht]
  decide

/-- A report on four finite values has every number with two digits after the
point. -/
theorem ReportOn_finite (t : String) (v1 v2 v3 v4 : F64) (s : String)
    (h : ReportOn t v1 v2 v3 v4 s) (h1 : v1.isFinite = true) (h2 : v2.isFinite = true)
    (h3 : v3.isFinite = true) (h4 : v4.isFinite = true) : ReportShape t s := by
  obtain ⟨n1, n2, n3, n4, r1, r2, r3, r4, hs⟩ := h
  simp only [Rendered, h1, h2, h3, h4, if_true] at r1 r2 r3 r4
  exact ⟨n1, n2, n3, n4, r1, r2, r3, r4, hs⟩

/-- The running branch of the report. -/
theorem ShowTrainingInfo_run_eq (a : Int) (d w h : F64) (l c : Int) :
    ShowTrainingInfo a "Бег" d w h l c
      = Sprintf "Бег" d (distance a) (meanSpeed a d) (RunningSpentCalories a w d) := by
  simp only [ShowTrainingInfo, if_true]

/-- The walking branch of the report. -/
theorem ShowTrainingInfo_walk_eq (a : Int) (d w h : F64) (l c : Int) :
    ShowTrainingInfo a "Ходьба" d w h l c
      = Sprintf "Ходьба" d (distance a) (meanSpeed a d)
          (WalkingSpentCalories a d w (h / fin cmInM)) := by
  have h1 : ¬ ("Ходьба" = "Бег") := by decide
  simp only [ShowTrainingInfo, h1, if_false, if_true]

/-- The swimming branch of the report. -/
theorem ShowTrainingInfo_swim_eq (a : Int) (d w h : F64) (l c : Int) :
    ShowTrainingInfo a "Плавание" d w h l c
      = Sprintf "Плавание" d (distance c) (swimmingMeanSpeed l c d)
          (SwimmingSpentCalories l c d w) := by
  have h1 : ¬ ("Плавание" = "Бег") := by decide
  have h2 : ¬ ("Плавание" = "Ходьба") := by decide
  simp only [ShowTrainingInfo, h1, h2, if_false, if_true]

/-- Dividing by a centimeter height over 100 and then by 100 is dividing by the
centimeter height, also for a non-finite dividend. -/
theorem F64.div_cm_div_cmInM (x : F64) (h : ℚ) (hh : h ≠ 0) :
    x / (fin h / fin 100) / fin 100 = x / fin h := by
  rw [F64.fin_div_fin h 100 (by norm_num)]
  have h100 : h / 100 ≠ 0 := div_ne_zero hh (by norm_num)
  cases x with
  | fin p =>
    rw [F64.fin_div_fin _ _ h100, F64.fin_div_fin _ _ (by norm_num), F64.fin_div_fin _ _ hh]
    congr 1
    field_simp
    ring
  | inf s =>
    show F64.div (F64.div (inf s) (fin (h / 100))) (fin 100) = F64.div (inf s) (fin h)
    have e : (h / 100 < 0) ↔ (h < 0) := by
      constructor
      · intro hlt
        by_contra hge
        exact absurd hlt (not_lt.2 (div_nonneg (not_lt.1 hge) (by norm_num)))
      · intro hlt
        exact div_neg_of_neg_of_pos hlt (by norm_num)
    have e100 : ¬ ((100 : ℚ) < 0) := by norm_num
    simp [F64.div, e, e100]
  | nan => rfl

/-! ## Energy model -/

/-- C1 (the code departs from it): with action 1000, duration 1 h, weight 70 kg
and height 1.8 m the specification's walking formula gives 149.21 kcal, while
`WalkingSpentCalories` divides the squared speed by the height and then once
more by `cmInM = 100` and gives 147.02 kcal. -/
theorem WalkingSpentCalories_divides_by_cmInM_too :
    fmtFloat2 (WalkingSpentCalories_spec 1000 (fin 1) (fin 70) (fin 1.8)) = "149.21"
      ∧ fmtFloat2 (WalkingSpentCalories 1000 (fin 1) (fin 70) (fin 1.8)) = "147.02"
      ∧ WalkingSpentCalories 1000 (fin 1) (fin 70) (fin 1.8)
          = WalkingSpentCalories_spec 1000 (fin 1) (fin 70) (fin 180)
      ∧ WalkingSpentCalories 1000 (fin 1) (fin 70) (fin 1.8)
          ≠ WalkingSpentCalories_spec 1000 (fin 1) (fin 70) (fin 1.8) := by
  decide!

/-- C2: for every action count, weight and duration, `RunningSpentCalories` is
`(18 × meanSpeed(action, duration) × 1.79) × weight / 1000 × duration × 60`. -/
theorem RunningSpentCalories_formula (action : Int) (weight duration : F64) :
    RunningSpentCalories action weight duration
      = (fin 18 * meanSpeed action duration * fin 1.79) * weight / fin 1000 * duration * fin 60 := by
  rfl

/-- C3: for every pool length, crossing count, duration and weight,
`SwimmingSpentCalories` is
`(swimmingMeanSpeed(lengthPool, countPool, duration) × 1.1) × 2 × weight × duration`. -/
theorem SwimmingSpentCalories_formula (lengthPool countPool : Int) (duration weight : F64) :
    SwimmingSpentCalories lengthPool countPool duration weight
      = (swimmingMeanSpeed lengthPool countPool duration * fin 1.1) * fin 2 * weight * duration := by
  rfl

/-- C4 as stated fails: `RunningSpentCalories(1000, 70, 1)` is
`(18 × 0.65 × 1.79) × 70 / 1000 × 1 × 60`, but that value does not lie in
`[87.88, 87.89)`. -/
theorem RunningSpentCalories_fixture_not_87_88 :
    ¬ (RunningSpentCalories 1000 (fin 70) (fin 1) = fin ((18 * 0.65 * 1.79) * 70 / 1000 * 1 * 60)
        ∧ (87.88 : ℚ) ≤ (18 * 0.65 * 1.79) * 70 / 1000 * 1 * 60
        ∧ ((18 * 0.65 * 1.79) * 70 / 1000 * 1 * 60 : ℚ) < 87.89) := by
  decide!

/-- C4 amended: `RunningSpentCalories(1000, 70, 1)` is
`(18 × 0.65 × 1.79) × 70 / 1000 × 1 × 60`, and that value is 87.9606: it lies
in `[87.96, 87.97)` and is rendered as 87.96. -/
theorem RunningSpentCalories_fixture :
    RunningSpentCalories 1000 (fin 70) (fin 1) = fin ((18 * 0.65 * 1.79) * 70 / 1000 * 1 * 60)
      ∧ ((18 * 0.65 * 1.79) * 70 / 1000 * 1 * 60 : ℚ) = 87.9606
      ∧ (87.96 : ℚ) ≤ (18 * 0.65 * 1.79) * 70 / 1000 * 1 * 60
      ∧ ((18 * 0.65 * 1.79) * 70 / 1000 * 1 * 60 : ℚ) < 87.97
      ∧ fmtFloat2 (RunningSpentCalories 1000 (fin 70) (fin 1)) = "87.96" := by
  decide!

/-! ## Report formatter -/

/-- C5: `ShowTrainingInfo` is a total function, and for all inputs (non-finite
numbers included) it returns the fallback string exactly when the label is none
of the three literal labels; so it does for the label `Unknown`. -/
theorem ShowTrainingInfo_fallback_iff :
    (∀ (action : Int) (trainingType : String) (duration weight height : F64)
        (lengthPool countPool : Int),
        ShowTrainingInfo action trainingType duration weight height lengthPool countPool
            = "неизвестный тип тренировки"
          ↔ (trainingType ≠ "Бег" ∧ trainingType ≠ "Ходьба" ∧ trainingType ≠ "Плавание"))
      ∧ (∀ (action : Int) (duration weight height : F64) (lengthPool countPool : Int),
        ShowTrainingInfo action "Unknown" duration weight height lengthPool countPool
            = "неизвестный тип тренировки") := by
  constructor
  · intro action trainingType duration weight height lengthPool countPool
    unfold ShowTrainingInfo
    split_ifs with h1 h2 h3 <;> simp [*, Sprintf_ne_fallback]
  · intro action duration weight height lengthPool countPool
    unfold ShowTrainingInfo
    simp

/-- C6: for the label `Ходьба` and all inputs the report shows the duration,
`distance(action)`, `meanSpeed(action, duration)` and
`WalkingSpentCalories(action, duration, weight, height / 100)`; a height of
180 cm goes downstream as 1.8 m. -/
theorem ShowTrainingInfo_walking :
    (∀ (action : Int) (duration weight height : F64) (lengthPool countPool : Int),
        ShowTrainingInfo action "Ходьба" duration weight height lengthPool countPool
          = "Тип тренировки: Ходьба\nДлительность: " ++ fmtFloat2 duration
            ++ " ч.\nДистанция: " ++ fmtFloat2 (distance action)
            ++ " км.\nСкорость: " ++ fmtFloat2 (meanSpeed action duration)
            ++ " км/ч\nСожгли калорий: "
            ++ fmtFloat2 (WalkingSpentCalories action duration weight (height / fin 100)) ++ "\n")
      ∧ (fin 180 / fin 100 : F64) = fin 1.8
      ∧ (∀ (action : Int) (duration weight : F64) (lengthPool countPool : Int),
        ShowTrainingInfo action "Ходьба" duration weight (fin 180) lengthPool countPool
          = "Тип тренировки: Ходьба\nДлительность: " ++ fmtFloat2 duration
            ++ " ч.\nДистанция: " ++ fmtFloat2 (distance action)
            ++ " км.\nСкорость: " ++ fmtFloat2 (meanSpeed action duration)
            ++ " км/ч\nСожгли калорий: "
            ++ fmtFloat2 (WalkingSpentCalories action duration weight (fin 1.8)) ++ "\n") := by
  have key : ∀ (action : Int) (duration weight height : F64) (lengthPool countPool : Int),
      ShowTrainingInfo action "Ходьба" duration weight height lengthPool countPool
        = "Тип тренировки: Ходьба\nДлительность: " ++ fmtFloat2 duration
          ++ " ч.\nДистанция: " ++ fmtFloat2 (distance action)
          ++ " км.\nСкорость: " ++ fmtFloat2 (meanSpeed action duration)
          ++ " км/ч\nСожгли калорий: "
          ++ fmtFloat2 (WalkingSpentCalories action duration weight (height / fin 100)) ++ "\n" := by
    intro action duration weight height lengthPool countPool
    apply String.ext
    have h1 : ¬ ("Ходьба" = "Бег") := by decide
    simp only [ShowTrainingInfo, h1, if_false, if_true, Sprintf_data, String.data_append]
    simp [cmInM]
  have h180 : (fin 180 / fin 100 : F64) = fin 1.8 := by
    rw [F64.fin_div_fin _ _ (by norm_num)]
    norm_num
  refine ⟨key, h180, ?_⟩
  intro action duration weight lengthPool countPool
  rw [key, h180]

/-- C7: for the label `Плавание` and all inputs the report shows the duration,
`distance(countPool)`, which is the crossing count times the 0.65 m stride over
1000 whatever `action` is, `swimmingMeanSpeed(lengthPool, countPool, duration)`
and `SwimmingSpentCalories(lengthPool, countPool, duration, weight)`. -/
theorem ShowTrainingInfo_swimming :
    (∀ (action : Int) (duration weight height : F64) (lengthPool countPool : Int),
        ShowTrainingInfo action "Плавание" duration weight height lengthPool countPool
          = "Тип тренировки: Плавание\nДлительность: " ++ fmtFloat2 duration
            ++ " ч.\nДистанция: " ++ fmtFloat2 (distance countPool)
            ++ " км.\nСкорость: "
            ++ fmtFloat2 (swimmingMeanSpeed lengthPool countPool duration)
            ++ " км/ч\nСожгли калорий: "
            ++ fmtFloat2 (SwimmingSpentCalories lengthPool countPool duration weight) ++ "\n")
      ∧ (∀ countPool : Int, distance countPool = fin (countPool * 0.65 / 1000)) := by
  constructor
  · intro action duration weight height lengthPool countPool
    apply String.ext
    have h1 : ¬ ("Плавание" = "Бег") := by decide
    have h2 : ¬ ("Плавание" = "Ходьба") := by decide
    simp only [ShowTrainingInfo, h1, h2, if_false, if_true, Sprintf_data, String.data_append]
    simp
  · intro countPool
    simp only [distance, F64.ofInt, lenStep, mInKm, F64.fin_mul_fin]
    rw [F64.fin_div_fin _ _ (by norm_num)]

/-- C8: for the label `Бег` and all inputs the report shows the duration,
`distance(action)`, `meanSpeed(action, duration)` and
`RunningSpentCalories(action, weight, duration)`. -/
theorem ShowTrainingInfo_running (action : Int) (duration weight height : F64)
    (lengthPool countPool : Int) :
    ShowTrainingInfo action "Бег" duration weight height lengthPool countPool
      = "Тип тренировки: Бег\nДлительность: " ++ fmtFloat2 duration
        ++ " ч.\nДистанция: " ++ fmtFloat2 (distance action)
        ++ " км.\nСкорость: " ++ fmtFloat2 (meanSpeed action duration)
        ++ " км/ч\nСожгли калорий: "
        ++ fmtFloat2 (RunningSpentCalories action weight duration) ++ "\n" := by
  apply String.ext
  simp only [ShowTrainingInfo, if_true, Sprintf_data, String.data_append]
  simp

/-- C9 as stated fails: the walking report for action 1000, duration 1 h, weight
70 kg and height 0 ends with the line `Сожгли калорий: +Inf`, which is no number
with two digits after the point. -/
theorem ShowTrainingInfo_walking_zero_height_not_shaped :
    ¬ ReportShape "Ходьба"
        (ShowTrainingInfo 1000 "Ходьба" (fin 1) (fin 70) (fin 0) 0 0) := by
  have hval : ShowTrainingInfo 1000 "Ходьба" (fin 1) (fin 70) (fin 0) 0 0
      = "Тип тренировки: Ходьба\nДлительность: 1.00 ч.\nДистанция: 0.65 км.\nСкорость: 0.65 км/ч\nСожгли калорий: +Inf\n" := by
    decide!
  rintro ⟨n1, n2, n3, n4, -, -, -, h4, heq⟩
  obtain ⟨l, d, hl, hd⟩ := isFixed2_last n4 h4
  rw [hval] at heq
  have h := congrArg (fun s => s.data.reverse.tail.head?) heq
  simp [String.data_append, hl] at h
  rw [← h] at hd
  exact absurd hd (by decide)

/-- C9 amended: for each of the three labels and all inputs the report is
exactly five lines, each ended by a newline, in the order kind (the label
unchanged), duration, distance, speed, calories; each of the four values is
rendered with exactly two digits after the point when it is finite and as
`+Inf`, `-Inf` or `NaN` when it is not, so that a report on four finite values
has the layout of the original claim. -/
theorem ShowTrainingInfo_shape :
    (∀ (action : Int) (duration weight height : F64) (lengthPool countPool : Int),
        ReportOn "Бег" duration (distance action) (meanSpeed action duration)
            (RunningSpentCalories action weight duration)
            (ShowTrainingInfo action "Бег" duration weight height lengthPool countPool)
          ∧ (ShowTrainingInfo action "Бег" duration weight height lengthPool
              countPool).data.count '\n' = 5)
      ∧ (∀ (action : Int) (duration weight height : F64) (lengthPool countPool : Int),
        ReportOn "Ходьба" duration (distance action) (meanSpeed action duration)
            (WalkingSpentCalories action duration weight (height / fin 100))
            (ShowTrainingInfo action "Ходьба" duration weight height lengthPool countPool)
          ∧ (ShowTrainingInfo action "Ходьба" duration weight height lengthPool
              countPool).data.count '\n' = 5)
      ∧ (∀ (action : Int) (duration weight height : F64) (lengthPool countPool : Int),
        ReportOn "Плавание" duration (distance countPool)
            (swimmingMeanSpeed lengthPool countPool duration)
            (SwimmingSpentCalories lengthPool countPool duration weight)
            (ShowTrainingInfo action "Плавание" duration weight height lengthPool countPool)
          ∧ (ShowTrainingInfo action "Плавание" duration weight height lengthPool
              countPool).data.count '\n' = 5)
      ∧ (∀ (t : String) (v1 v2 v3 v4 : F64) (s : String), ReportOn t v1 v2 v3 v4 s →
        v1.isFinite = true → v2.isFinite = true → v3.isFinite = true → v4.isFinite = true →
        ReportShape t s) := by
  refine ⟨?_, ?_, ?_, ReportOn_finite⟩
  · intro action duration weight height lengthPool countPool
    rw [ShowTrainingInfo_run_eq]
    exact ⟨Sprintf_reportOn _ _ _ _ _, Sprintf_count_newline _ _ _ _ _ (by decide)⟩
  · intro action duration weight height lengthPool countPool
    rw [ShowTrainingInfo_walk_eq]
    exact ⟨Sprintf_reportOn _ _ _ _ _, Sprintf_count_newline _ _ _ _ _ (by decide)⟩
  · intro action duration weight height lengthPool countPool
    rw [ShowTrainingInfo_swim_eq]
    exact ⟨Sprintf_reportOn _ _ _ _ _, Sprintf_count_newline _ _ _ _ _ (by decide)⟩

/-- C9 amended, at action 1000, `Ходьба`, duration 1 h, weight 70 kg: with a
height of 180 cm the four values are finite and the report has the layout of
the original claim; with a height of 0 the calories are `+Inf` and are rendered
so, on the fifth of five lines. -/
theorem ShowTrainingInfo_shape_witness :
    ((fin 1 : F64).isFinite = true ∧ (distance 1000).isFinite = true
        ∧ (meanSpeed 1000 (fin 1)).isFinite = true
        ∧ (WalkingSpentCalories 1000 (fin 1) (fin 70) (fin 180 / fin 100)).isFinite = true)
      ∧ ReportShape "Ходьба" (ShowTrainingInfo 1000 "Ходьба" (fin 1) (fin 70) (fin 180) 0 0)
      ∧ WalkingSpentCalories 1000 (fin 1) (fin 70) (fin 0 / fin 100) = inf false
      ∧ ReportOn "Ходьба" (fin 1) (distance 1000) (meanSpeed 1000 (fin 1)) (inf false)
          (ShowTrainingInfo 1000 "Ходьба" (fin 1) (fin 70) (fin 0) 0 0)
      ∧ (ShowTrainingInfo 1000 "Ходьба" (fin 1) (fin 70) (fin 0) 0 0).data.count '\n' = 5 := by
  have h0 : WalkingSpentCalories 1000 (fin 1) (fin 70) (fin 0 / fin 100) = inf false := by
    decide!
  refine ⟨⟨rfl, by decide!, by decide!, by decide!⟩, ?_, h0, ?_, ?_⟩
  · exact ShowTrainingInfo_shape.2.2.2 _ _ _ _ _ _
      (ShowTrainingInfo_shape.2.1 1000 (fin 1) (fin 70) (fin 180) 0 0).1
      rfl (by decide!) (by decide!) (by decide!)
  · have h := (ShowTrainingInfo_shape.2.1 1000 (fin 1) (fin 70) (fin 0) 0 0).1
    rw [h0] at h
    exact h
  · exact (ShowTrainingInfo_shape.2.1 1000 (fin 1) (fin 70) (fin 0) 0 0).2

/-! ## Kinematics -/

/-- C10: for every action count `x` and duration `d`, `meanSpeed(x, d)` is `0`
when `d = 0` and `distance(x) / d` otherwise; `meanSpeed(x, 0) = 0` for all `x`
and `meanSpeed(1000, 1) = 0.65`. -/
theorem meanSpeed_eq :
    (∀ (x : Int) (d : F64), meanSpeed x d = if d = fin 0 then fin 0 else distance x / d)
      ∧ (∀ x : Int, meanSpeed x (fin 0) = fin 0)
      ∧ meanSpeed 1000 (fin 1) = fin 0.65 := by
  refine ⟨?_, ?_, by decide!⟩
  · intro x d
    unfold meanSpeed
    by_cases h : d = fin 0
    · rw [if_pos h, if_pos ((F64.isZero_iff d).2 h)]
    · rw [if_neg h, if_neg (fun hz => h ((F64.isZero_iff d).1 hz))]
  · intro x
    simp [meanSpeed, F64.isZero]

/-! ## Kinematics, continued -/

/-- C11: for every pool length `l`, crossing count `c` and duration `d`,
`swimmingMeanSpeed(l, c, d)` is `0` when `d = 0` and `l × c / 1000 / d`
otherwise; `swimmingMeanSpeed(l, c, 0) = 0` for all `l` and `c`. -/
theorem swimmingMeanSpeed_eq :
    (∀ (l c : Int) (d : F64),
        swimmingMeanSpeed l c d
          = if d = fin 0 then fin 0 else F64.ofInt l * F64.ofInt c / fin 1000 / d)
      ∧ (∀ (l c : Int) (d : ℚ),
        swimmingMeanSpeed l c (fin d) = fin (if d = 0 then 0 else l * c / 1000 / d))
      ∧ (∀ l c : Int, swimmingMeanSpeed l c (fin 0) = fin 0) := by
  refine ⟨?_, swimmingMeanSpeed_fin, ?_⟩
  · intro l c d
    unfold swimmingMeanSpeed
    by_cases h : d = fin 0
    · rw [if_pos h, if_pos ((F64.isZero_iff d).2 h)]
    · rw [if_neg h, if_neg (fun hz => h ((F64.isZero_iff d).1 hz))]
      rfl
  · intro l c
    simp [swimmingMeanSpeed, F64.isZero]

/-- C12: for every action count `a`, `distance(a)` is `a × 0.65 / 1000`;
`distance(0) = 0` and `distance(1000) = 0.65`. -/
theorem distance_eq :
    (∀ a : Int, distance a = F64.ofInt a * fin 0.65 / fin 1000)
      ∧ (∀ a : Int, distance a = fin (a * 0.65 / 1000))
      ∧ distance 0 = fin 0
      ∧ distance 1000 = fin 0.65 := by
  refine ⟨fun _ => rfl, distance_fin, ?_, ?_⟩
  · rw [distance_fin]; norm_num
  · rw [distance_fin]; norm_num

/-- C13: `distance` is linear in the action count: `distance(2a) = 2 × distance(a)`
for every action count `a`. -/
theorem distance_double (a : Int) : distance (2 * a) = fin 2 * distance a := by
  rw [distance_fin, distance_fin, F64.fin_mul_fin]
  congr 1
  push_cast
  ring

/-! ## Zero duration, cancellation and sign -/

/-- C14: with a zero duration, a finite weight and a finite non-zero height,
`meanSpeed`, `swimmingMeanSpeed`, `RunningSpentCalories`, `WalkingSpentCalories`
and `SwimmingSpentCalories` all return `0`. -/
theorem zero_duration (action lengthPool countPool : Int) (weight height : ℚ)
    (hh : height ≠ 0) :
    meanSpeed action (fin 0) = fin 0
      ∧ swimmingMeanSpeed lengthPool countPool (fin 0) = fin 0
      ∧ RunningSpentCalories action (fin weight) (fin 0) = fin 0
      ∧ WalkingSpentCalories action (fin 0) (fin weight) (fin height) = fin 0
      ∧ SwimmingSpentCalories lengthPool countPool (fin 0) (fin weight) = fin 0 := by
  refine ⟨?_, ?_, ?_, ?_, ?_⟩
  · rw [meanSpeed_fin]; simp
  · rw [swimmingMeanSpeed_fin]; simp
  · rw [RunningSpentCalories_fin]; simp
  · rw [WalkingSpentCalories_fin _ _ _ _ hh]; simp
  · rw [SwimmingSpentCalories_fin]; simp

/-- C14 at action 1000, a 50 m pool crossed 10 times, weight 70 kg, height 180. -/
theorem zero_duration_witness :
    (180 : ℚ) ≠ 0
      ∧ meanSpeed 1000 (fin 0) = fin 0
      ∧ swimmingMeanSpeed 50 10 (fin 0) = fin 0
      ∧ RunningSpentCalories 1000 (fin 70) (fin 0) = fin 0
      ∧ WalkingSpentCalories 1000 (fin 0) (fin 70) (fin 180) = fin 0
      ∧ SwimmingSpentCalories 50 10 (fin 0) (fin 70) = fin 0 :=
  ⟨by decide!, zero_duration 1000 50 10 70 180 (by decide!)⟩

/-- C15: end to end, for the label `Ходьба` and a positive height `h` in
centimeters, the calories the report renders are
`(0.035 × weight + ((meanSpeed(action, duration) × 0.278)² / h) × 0.029 × weight) × duration × 60`:
the division of `h` by 100 in the formatter and the division by 100 in
`WalkingSpentCalories` cancel. -/
theorem ShowTrainingInfo_walking_calories (action : Int) (duration weight : F64) (h : ℚ)
    (lengthPool countPool : Int) (hpos : 0 < h) :
    WalkingSpentCalories action duration weight (fin h / fin 100)
        = (fin 0.035 * weight
            + (Pow (meanSpeed action duration * fin 0.278) 2 / fin h) * fin 0.029 * weight)
          * duration * fin 60
      ∧ ShowTrainingInfo action "Ходьба" duration weight (fin h) lengthPool countPool
        = "Тип тренировки: Ходьба\nДлительность: " ++ fmtFloat2 duration
          ++ " ч.\nДистанция: " ++ fmtFloat2 (distance action)
          ++ " км.\nСкорость: " ++ fmtFloat2 (meanSpeed action duration)
          ++ " км/ч\nСожгли калорий: "
          ++ fmtFloat2 ((fin 0.035 * weight
              + (Pow (meanSpeed action duration * fin 0.278) 2 / fin h) * fin 0.029 * weight)
            * duration * fin 60) ++ "\n" := by
  have hcal : WalkingSpentCalories action duration weight (fin h / fin 100)
      = (fin 0.035 * weight
          + (Pow (meanSpeed action duration * fin 0.278) 2 / fin h) * fin 0.029 * weight)
        * duration * fin 60 := by
    have hdiv := F64.div_cm_div_cmInM (Pow (meanSpeed action duration * fin 0.278) 2) h
      (ne_of_gt hpos)
    unfold WalkingSpentCalories
    simp only [kmhInMsec, cmInM, walkingCaloriesWeightMultiplier, walkingSpeedHeightMultiplier,
      minInH]
    rw [hdiv]
  refine ⟨hcal, ?_⟩
  rw [ShowTrainingInfo_walk_eq]
  simp only [cmInM]
  rw [hcal]
  apply String.ext
  simp [Sprintf_data, String.data_append]

/-- C15 at action 1000, duration 1 h, weight 70 kg, height 180 cm: 147.02 kcal. -/
theorem ShowTrainingInfo_walking_calories_witness :
    (0 : ℚ) < 180
      ∧ fmtFloat2 ((fin 0.035 * fin 70
            + (Pow (meanSpeed 1000 (fin 1) * fin 0.278) 2 / fin 180) * fin 0.029 * fin 70)
          * fin 1 * fin 60) = "147.02"
      ∧ ShowTrainingInfo 1000 "Ходьба" (fin 1) (fin 70) (fin 180) 0 0
        = "Тип тренировки: Ходьба\nДлительность: " ++ fmtFloat2 (fin 1)
          ++ " ч.\nДистанция: " ++ fmtFloat2 (distance 1000)
          ++ " км.\nСкорость: " ++ fmtFloat2 (meanSpeed 1000 (fin 1))
          ++ " км/ч\nСожгли калорий: "
          ++ fmtFloat2 ((fin 0.035 * fin 70
              + (Pow (meanSpeed 1000 (fin 1) * fin 0.278) 2 / fin 180) * fin 0.029 * fin 70)
            * fin 1 * fin 60) ++ "\n" :=
  ⟨by decide!, by decide!,
    (ShowTrainingInfo_walking_calories 1000 (fin 1) (fin 70) 180 0 0 (by decide!)).2⟩

/-- C16: for every action count, finite weight and two non-zero finite
durations `d1`, `d2`, `RunningSpentCalories` returns the same value,
`18 × 1.79 × distance(action) × weight / 1000 × 60`. -/
theorem RunningSpentCalories_duration_free (action : Int) (weight d1 d2 : ℚ)
    (h1 : d1 ≠ 0) (h2 : d2 ≠ 0) :
    RunningSpentCalories action (fin weight) (fin d1)
        = RunningSpentCalories action (fin weight) (fin d2)
      ∧ RunningSpentCalories action (fin weight) (fin d1)
        = fin 18 * fin 1.79 * distance action * fin weight / fin 1000 * fin 60 := by
  have key : ∀ d : ℚ, d ≠ 0 → RunningSpentCalories action (fin weight) (fin d)
      = fin 18 * fin 1.79 * distance action * fin weight / fin 1000 * fin 60 := by
    intro d hd
    rw [RunningSpentCalories_fin, distance_fin]
    simp only [F64.fin_mul_fin, if_neg hd]
    rw [F64.fin_div_fin _ _ (by norm_num), F64.fin_mul_fin]
    congr 1
    field_simp
    ring
  exact ⟨(key d1 h1).trans (key d2 h2).symm, key d1 h1⟩

/-- C16 at action 1000, weight 70 kg, durations 1 h and 0.75 h. -/
theorem RunningSpentCalories_duration_free_witness :
    (1 : ℚ) ≠ 0 ∧ (3 / 4 : ℚ) ≠ 0
      ∧ RunningSpentCalories 1000 (fin 70) (fin 1)
        = RunningSpentCalories 1000 (fin 70) (fin (3 / 4))
      ∧ RunningSpentCalories 1000 (fin 70) (fin 1)
        = fin 18 * fin 1.79 * distance 1000 * fin 70 / fin 1000 * fin 60 :=
  ⟨by decide!, by decide!,
    RunningSpentCalories_duration_free 1000 70 1 (3 / 4) (by decide!) (by decide!)⟩

/-- C17: for every pool length `l`, crossing count `c`, finite weight `w` and
non-zero finite duration `d`, `SwimmingSpentCalories(l, c, d, w)` is
`(l × c / 1000) × 1.1 × 2 × w`. -/
theorem SwimmingSpentCalories_duration_free (l c : Int) (w d : ℚ) (hd : d ≠ 0) :
    SwimmingSpentCalories l c (fin d) (fin w) = fin ((l * c / 1000) * 1.1 * 2 * w) := by
  rw [SwimmingSpentCalories_fin, if_neg hd]
  congr 1
  field_simp
  ring

/-- C17 at a 50 m pool crossed 10 times, duration 0.75 h, weight 85 kg. -/
theorem SwimmingSpentCalories_duration_free_witness :
    (3 / 4 : ℚ) ≠ 0
      ∧ SwimmingSpentCalories 50 10 (fin (3 / 4)) (fin 85)
        = fin (((50 : Int) * (10 : Int) / 1000) * 1.1 * 2 * 85) :=
  ⟨by decide!, SwimmingSpentCalories_duration_free 50 10 85 (3 / 4) (by decide!)⟩

/-- C18: on the domain of the data model (action count, pool length and
crossings at least zero, duration at least zero, weight and height positive)
`distance`, `meanSpeed`, `swimmingMeanSpeed`, `RunningSpentCalories`,
`WalkingSpentCalories` and `SwimmingSpentCalories` return non-negative values. -/
theorem nonneg_on_domain (action lengthPool countPool : Int) (duration weight height : ℚ)
    (ha : 0 ≤ action) (hl : 0 ≤ lengthPool) (hc : 0 ≤ countPool) (hd : 0 ≤ duration)
    (hw : 0 < weight) (hh : 0 < height) :
    (distance action).isNonneg = true
      ∧ (meanSpeed action (fin duration)).isNonneg = true
      ∧ (swimmingMeanSpeed lengthPool countPool (fin duration)).isNonneg = true
      ∧ (RunningSpentCalories action (fin weight) (fin duration)).isNonneg = true
      ∧ (WalkingSpentCalories action (fin duration) (fin weight) (fin height)).isNonneg = true
      ∧ (SwimmingSpentCalories lengthPool countPool (fin duration) (fin weight)).isNonneg
          = true := by
  have ha' : (0 : ℚ) ≤ action := by exact_mod_cast ha
  have hl' : (0 : ℚ) ≤ lengthPool := by exact_mod_cast hl
  have hc' : (0 : ℚ) ≤ countPool := by exact_mod_cast hc
  have hms : (0 : ℚ) ≤ if duration = 0 then 0 else (action : ℚ) * 0.65 / 1000 / duration := by
    split_ifs
    · exact le_refl 0
    · positivity
  have hsw : (0 : ℚ) ≤
      if duration = 0 then 0 else (lengthPool : ℚ) * countPool / 1000 / duration := by
    split_ifs
    · exact le_refl 0
    · positivity
  rw [distance_fin, meanSpeed_fin, swimmingMeanSpeed_fin, RunningSpentCalories_fin,
    WalkingSpentCalories_fin _ _ _ _ (ne_of_gt hh), SwimmingSpentCalories_fin]
  simp only [F64.isNonneg, decide_eq_true_eq]
  refine ⟨by positivity, hms, hsw, by positivity, by positivity, by positivity⟩

/-- C18 at action 1000, a 50 m pool crossed 10 times, duration 1 h, weight 70 kg,
height 1.8 m. -/
theorem nonneg_on_domain_witness :
    ((0 : Int) ≤ 1000 ∧ (0 : Int) ≤ 50 ∧ (0 : Int) ≤ 10 ∧ (0 : ℚ) ≤ 1 ∧ (0 : ℚ) < 70
        ∧ (0 : ℚ) < 1.8)
      ∧ (distance 1000).isNonneg = true
      ∧ (meanSpeed 1000 (fin 1)).isNonneg = true
      ∧ (swimmingMeanSpeed 50 10 (fin 1)).isNonneg = true
      ∧ (RunningSpentCalories 1000 (fin 70) (fin 1)).isNonneg = true
      ∧ (WalkingSpentCalories 1000 (fin 1) (fin 70) (fin 1.8)).isNonneg = true
      ∧ (SwimmingSpentCalories 50 10 (fin 1) (fin 70)).isNonneg = true :=
  ⟨by decide!, nonneg_on_domain 1000 50 10 1 70 1.8 (by decide) (by decide) (by decide)
    (by decide!) (by decide!) (by decide!)⟩

/-! ## Inputs of the other activities -/

/-- C19: the report ignores the inputs of the other activities: for `Плавание`
the action count and the height, for `Бег` the height, the pool length and the
crossings, for `Ходьба` the pool length and the crossings. -/
theorem ShowTrainingInfo_ignores_unused :
    (∀ (a a' : Int) (d w h h' : F64) (l c : Int),
        ShowTrainingInfo a "Плавание" d w h l c = ShowTrainingInfo a' "Плавание" d w h' l c)
      ∧ (∀ (a : Int) (d w h h' : F64) (l l' c c' : Int),
        ShowTrainingInfo a "Бег" d w h l c = ShowTrainingInfo a "Бег" d w h' l' c')
      ∧ (∀ (a : Int) (d w h : F64) (l l' c c' : Int),
        ShowTrainingInfo a "Ходьба" d w h l c = ShowTrainingInfo a "Ходьба" d w h l' c') := by
  refine ⟨?_, ?_, ?_⟩
  · intro a a' d w h h' l c
    rw [ShowTrainingInfo_swim_eq, ShowTrainingInfo_swim_eq]
  · intro a d w h h' l l' c c'
    rw [ShowTrainingInfo_run_eq, ShowTrainingInfo_run_eq]
  · intro a d w h l l' c c'
    rw [ShowTrainingInfo_walk_eq, ShowTrainingInfo_walk_eq]

end Ftracker
